import Mathlib

/-!
Shallow embedding of the resolution-and-synchronization layer of the
`miminar/image` repository: the OpenShift stream-metadata client
(`openshift/openshift.go`) and the manifest-list platform selector
(package `image`).  Go strings are Lean `String`s, byte slices are
`List Nat`, maps used only for membership are name lists, and stateful
network interaction is made explicit: each operation takes the results
of its external calls as parameters and returns the list of API calls
it performed.
-/

deriving instance DecidableEq for Except

namespace Openshift

/-- Subset of `k8s` ObjectMeta carried by the API objects.  Only `name` is
ever read or written by the code under study; the remaining JSON metadata
fields (generateName, namespace, selfLink, resourceVersion, generation,
deletionGracePeriodSeconds, labels, annotations) are payload the code never
touches and are omitted from the model. -/
structure objectMeta where
  name : String
deriving DecidableEq

/-- Subset of k8s TypeMeta. -/
structure typeMeta where
  kind : String
  apiVersion : String
deriving DecidableEq

/-- The only recognized signature type, `imageSignatureTypeAtomic` in Go. -/
def imageSignatureTypeAtomic : String := "atomic"

/-- One stored image signature object (struct `imageSignature`). -/
structure imageSignature where
  typeMeta : typeMeta
  metadata : objectMeta
  sigType : String
  content : List Nat
deriving DecidableEq

/-- An image object (struct `image`): metadata plus its signature list.
The commented-out Go fields are likewise dropped here. -/
structure image where
  metadata : objectMeta
  dockerImageReference : String
  dockerImageMetadataVersion : String
  dockerImageManifest : String
  signatures : List imageSignature
deriving DecidableEq

/-- One tag event (struct `tagEvent`). -/
structure tagEvent where
  dockerImageReference : String
  image : String
deriving DecidableEq

/-- A named tag event list (struct `namedTagEventList`). -/
structure namedTagEventList where
  tag : String
  items : List tagEvent
deriving DecidableEq

/-- Subset of the k8s Status envelope (struct `status`). -/
structure status where
  status : String
  message : String
  code : Int
deriving DecidableEq

/-- Credential scheme attached to a request by `doRequest`. -/
inductive requestAuth where
  | bearer (token : String)
  | basic (username password : String)
  | noAuth
deriving DecidableEq

/-- Credential selection of `doRequest` (openshift.go lines 84 to 88):
`if len(c.bearerToken) != 0` set the Authorization Bearer header,
`else if len(c.username) != 0` set HTTP basic auth, else nothing. -/
def setRequestAuth (bearerToken username password : String) : requestAuth :=
  if bearerToken.length ≠ 0 then .bearer bearerToken
  else if username.length ≠ 0 then .basic username password
  else .noAuth

/-- Validity test for the opportunistically decoded status envelope
(openshift.go lines 109 to 113): `statusValid` is true when
`json.Unmarshal` succeeded (here: `decoded = some st`) and
`len(status.Status) > 0`. -/
def statusValid (decoded : Option status) : Bool :=
  match decoded with
  | some st => decide (0 < st.status.length)
  | none => false

/-- Response classification of `doRequest` (openshift.go lines 115 to 129).
The JSON decode attempt is external, so the decoded envelope (or `none` when
`json.Unmarshal` failed) is a parameter; the body is the raw text. -/
def classifyResponse (statusCode : Nat) (decoded : Option status) (body : String) :
    Except String String :=
  let st : status := match decoded with | some s => s | none => ⟨"", "", 0⟩
  if statusCode = 101 then
    if statusValid decoded ∧ st.status ≠ "Success" then Except.error st.message
    else Except.ok body
  else if 200 ≤ statusCode ∧ statusCode ≤ 206 then Except.ok body
  else if statusValid decoded then Except.error st.message
  else Except.error ("HTTP error: status code: " ++ toString statusCode ++ ", body: " ++ body)

/-- Splitting a character list at the first slash, the semantics of
Go `strings.SplitN(ref, "/", 2)`: `none` when no slash occurs (SplitN
returned a single part), otherwise the part before and after the first
slash. -/
def splitN2Slash : List Char → Option (List Char × List Char)
  | [] => none
  | c :: rest =>
    if c = '/' then some ([], rest)
    else (splitN2Slash rest).map (fun p => (c :: p.1, p.2))

/-- Reference translation (openshift.go lines 150 to 156): split the raw
reference on the first slash, fail when there is none, otherwise replace the
host part with the externally-known hostname
(`c.ref.dockerReference.Hostname()`, here the parameter `hostname`). -/
def convertDockerImageReference (hostname : String) (ref : String) : Except String String :=
  match splitN2Slash ref.data with
  | none => Except.error ("Invalid format of docker reference " ++ ref ++ ": missing \x27/\x27")
  | some (_, rest) => Except.ok (hostname ++ "/" ++ String.mk rest)

/-- Tag scan of `ensureImageIsResolved` (openshift.go lines 256 to 265):
iterate over `is.Status.Tags`; `continue` on a tag different from the
reference tag; on a matching tag with non-empty `items` take its first item
and `break`; a matching tag with empty `items` falls through to the next
iteration. -/
def findTagEvent (refTag : String) : List namedTagEventList → Option tagEvent
  | [] => none
  | tag :: rest =>
    if tag.tag ≠ refTag then findTagEvent refTag rest
    else if 0 < tag.items.length then tag.items.head?
    else findTagEvent refTag rest

/-- Outcome of the tag-resolution step of `ensureImageIsResolved`
(openshift.go lines 256 to 268): the found tag event, or the error
raised when the scan found none. -/
def resolveTagEvent (refTag : String) (tags : List namedTagEventList) :
    Except String tagEvent :=
  match findTagEvent refTag tags with
  | none => Except.error "No matching tag found"
  | some te => Except.ok te

/-- Follows the claim wording, for comparison with `findTagEvent`: locate
the entry of `status.tags` whose tag equals the reference tag (the first
one, ignoring non-matching tags), and take the first element of its
`items`; fail when no tag matches or the matching entry has empty `items`. -/
def resolveTagEventSpec (refTag : String) (tags : List namedTagEventList) :
    Except String tagEvent :=
  match tags.find? (fun t => t.tag = refTag) with
  | none => Except.error "No matching tag found"
  | some t =>
    match t.items.head? with
    | none => Except.error "No matching tag found"
    | some te => Except.ok te

/-- One API call of the signature synchronizer, recorded so that theorems
can speak about the network traffic of an operation. -/
inductive apiCall where
  | getImage (imageStreamImageName : String)
  | postSignature (sig : imageSignature)
deriving DecidableEq

/-- Hexadecimal digit character, lowercase, as produced by Go `%x`. -/
def hexDigit (n : Nat) : Char :=
  if n < 10 then Char.ofNat (48 + n) else Char.ofNat (87 + n)

/-- Two lowercase hexadecimal digits of one byte. -/
def hexByte (b : Nat) : List Char :=
  [hexDigit (b / 16 % 16), hexDigit (b % 16)]

/-- Lowercase hexadecimal rendering of a byte slice; applied by the code
only to slices of exactly 16 bytes, where Go `%032x` is exactly two digits
per byte with no extra padding. -/
def hex32 (bs : List Nat) : String :=
  String.mk (bs.foldr (fun b acc => hexByte b ++ acc) [])

/-- Signature-name generation loop of `PutSignatures` (openshift.go lines
399 to 410).  The process randomness source is modelled as a stream of
16-byte draws consumed one per iteration; a draw of the wrong length is the
`err != nil || n != 16` failure of `rand.Read`, and so is an exhausted
stream.  The candidate `"<contentID>@<32 hex>"` name is retried while it
collides with `existingSigNames`, which the caller built from the fetched
image and never extends. -/
def genSignatureName (contentID : String) (existingSigNames : List String) :
    List (List Nat) → Except String (String × List (List Nat))
  | [] => Except.error "Error generating random signature ID"
  | randBytes :: rest =>
    if randBytes.length ≠ 16 then Except.error "Error generating random signature ID"
    else
      let signatureName := contentID ++ "@" ++ hex32 randBytes
      if signatureName ∈ existingSigNames then
        genSignatureName contentID existingSigNames rest
      else Except.ok (signatureName, rest)

/-- Per-candidate loop of `PutSignatures` (openshift.go lines 390 to 426,
label `sigExists`): skip a candidate when some existing signature is
`atomic`-typed with byte-identical content; otherwise mint a name, build the
`imageSignature` object and POST it.  The POST transport is modelled as
succeeding; the returned pair is the list of signature objects POSTed and
the trace of POST calls. -/
def putSignaturesLoop (contentID : String) (existingSigs : List imageSignature)
    (existingSigNames : List String) :
    List (List Nat) → List (List Nat) → Except String (List imageSignature) × List apiCall
  | _, [] => (Except.ok [], [])
  | rand, newSig :: rest =>
    if ∃ q ∈ existingSigs, q.sigType = imageSignatureTypeAtomic ∧ q.content = newSig then
      putSignaturesLoop contentID existingSigs existingSigNames rand rest
    else
      match genSignatureName contentID existingSigNames rand with
      | Except.error e => (Except.error e, [])
      | Except.ok (signatureName, randRest) =>
        let sig : imageSignature :=
          ⟨⟨"ImageSignature", "v1"⟩, ⟨signatureName⟩, imageSignatureTypeAtomic, newSig⟩
        match putSignaturesLoop contentID existingSigs existingSigNames randRest rest with
        | (Except.error e, calls) => (Except.error e, apiCall.postSignature sig :: calls)
        | (Except.ok sigs, calls) => (Except.ok (sig :: sigs), apiCall.postSignature sig :: calls)

/-- State of `openshiftImageDestination` that this layer reads and writes:
the recorded content identifier, `""` while not yet known.  The delegate
docker handle is external. -/
structure openshiftImageDestination where
  imageStreamImageName : String
deriving DecidableEq

/-- Destination state as built by `newImageDestination` (openshift.go lines
296 to 319): the Go zero value leaves `imageStreamImageName` empty. -/
def newImageDestinationState : openshiftImageDestination := ⟨""⟩

/-- The error of `PutSignatures` when no manifest digest was recorded. -/
def unknownDigestError : String :=
  "Internal error: Unknown manifest digest, can\x27t add signatures"

/-- The `PutSignatures` method (openshift.go lines 370 to 429).  External
interactions are explicit: `getImageResult` is the outcome of the
`d.client.getImage` fetch, `rand` the randomness stream, and the second
component of the result is the trace of API calls performed.  On success the
first component lists the signature objects POSTed, in order. -/
def PutSignatures (d : openshiftImageDestination) (getImageResult : Except String image)
    (rand : List (List Nat)) (signatures : List (List Nat)) :
    Except String (List imageSignature) × List apiCall :=
  if d.imageStreamImageName = "" then (Except.error unknownDigestError, [])
  else if signatures.length = 0 then (Except.ok [], [])
  else
    match getImageResult with
    | Except.error e => (Except.error e, [apiCall.getImage d.imageStreamImageName])
    | Except.ok img =>
      let existingSigNames := img.signatures.map (fun s => s.metadata.name)
      match putSignaturesLoop d.imageStreamImageName img.signatures existingSigNames
          rand signatures with
      | (r, calls) => (r, apiCall.getImage d.imageStreamImageName :: calls)

/-- The `PutManifest` method (openshift.go lines 360 to 368).  The two
external calls are parameters: `digestResult` is the outcome of
`manifest.Digest(m)` (a helper from the manifest package, outside this
layer) and `delegateResult` the outcome of `d.docker.PutManifest(m)`.  On a
successful digest the identifier is recorded on the state first and the
delegate outcome is returned as is. -/
def PutManifest (digestResult : Except String String) (delegateResult : Except String Unit)
    (d : openshiftImageDestination) : openshiftImageDestination × Except String Unit :=
  match digestResult with
  | Except.error e => (d, Except.error e)
  | Except.ok manifestDigest =>
    ({ d with imageStreamImageName := manifestDigest }, delegateResult)

end Openshift

namespace Image

/-- Platform description of a manifest-list entry (struct `platformSpec`). -/
structure platformSpec where
  architecture : String
  os : String
  osVersion : String
  osFeatures : List String
  variant : String
  features : List String
deriving DecidableEq

/-- A platform-specific manifest reference (struct `manifestDescriptor`,
its embedded `descriptor` fields inlined). -/
structure manifestDescriptor where
  mediaType : String
  size : Int
  digest : String
  platform : platformSpec
deriving DecidableEq

/-- A manifest list (struct `manifestList`). -/
structure manifestList where
  schemaVersion : Int
  mediaType : String
  manifests : List manifestDescriptor
deriving DecidableEq

/-- Selection loop of `manifestSchema2FromManifestList` (part_000 lines 37
to 43): scan the descriptors in order and take the digest of the first one
whose platform architecture and OS equal the running platform
(`runtime.GOARCH`, `runtime.GOOS`); the digest variable stays `""` when the
loop sets nothing. -/
def findTargetManifestDigest (goarch goos : String) : List manifestDescriptor → String
  | [] => ""
  | d :: rest =>
    if d.platform.architecture = goarch ∧ d.platform.os = goos then d.digest
    else findTargetManifestDigest goarch goos rest

/-- The `manifestSchema2FromManifestList` function (part_000 lines 32 to
52), modelled after JSON decoding: the already-decoded list is the input,
the running platform is a parameter, and `getTargetManifest` stands for the
digest-addressed fetch `src.GetTargetManifest` returning manifest bytes and
their media type (the final `manifestInstanceFromBlob` parse of those bytes
is an external collaborator and is not modelled). -/
def manifestSchema2FromManifestList (goarch goos : String)
    (getTargetManifest : String → Except String (List Nat × String))
    (list : manifestList) : Except String (List Nat × String) :=
  let targetManifestDigest := findTargetManifestDigest goarch goos list.manifests
  if targetManifestDigest = "" then
    Except.error "no supported platform found in manifest list"
  else getTargetManifest targetManifestDigest

end Image

namespace Openshift

/-- A string has length zero exactly when it is empty; bridges the Go
`len(s)` tests to equality with the empty string. -/
theorem string_length_eq_zero (s : String) : s.length = 0 ↔ s = "" := by
  constructor
  · intro h
    cases s with
    | mk l =>
      cases l with
      | nil => rfl
      | cons c t => simp [String.length] at h
  · intro h
    subst h
    rfl

/-- C9: every request built by `doRequest` carries exactly one credential
scheme, by priority: the Authorization Bearer header when the bearer token
is non-empty, else HTTP basic auth when the username is non-empty, else no
credentials at all. -/
theorem doRequest_auth_priority (bearerToken username password : String) :
    (bearerToken ≠ "" →
      setRequestAuth bearerToken username password = .bearer bearerToken)
    ∧ (bearerToken = "" → username ≠ "" →
      setRequestAuth bearerToken username password = .basic username password)
    ∧ (bearerToken = "" → username = "" →
      setRequestAuth bearerToken username password = .noAuth) := by
  refine ⟨?_, ?_, ?_⟩
  · intro hb
    have hb' : bearerToken.length ≠ 0 := fun hl => hb ((string_length_eq_zero _).1 hl)
    simp [setRequestAuth, hb']
  · intro hb hu
    subst hb
    have hu' : username.length ≠ 0 := fun hl => hu ((string_length_eq_zero _).1 hl)
    simp [setRequestAuth, hu']
  · intro hb hu
    subst hb
    subst hu
    simp [setRequestAuth]

/-- Witness for C9 at concrete credentials. -/
theorem doRequest_auth_priority_witness :
    setRequestAuth "tok" "user" "pw" = .bearer "tok"
    ∧ setRequestAuth "" "user" "pw" = .basic "user" "pw"
    ∧ setRequestAuth "" "" "pw" = .noAuth :=
  ⟨(doRequest_auth_priority "tok" "user" "pw").1 (by decide),
   (doRequest_auth_priority "" "user" "pw").2.1 rfl (by decide),
   (doRequest_auth_priority "" "" "pw").2.2 rfl rfl⟩

/-- Splitting finds nothing exactly on slash-free input. -/
theorem splitN2Slash_eq_none (l : List Char) (h : '/' ∉ l) : splitN2Slash l = none := by
  induction l with
  | nil => rfl
  | cons c t ih =>
    have hc : c ≠ '/' := fun he => h (he ▸ List.mem_cons_self c t)
    have ht : '/' ∉ t := fun hm => h (List.mem_cons_of_mem c hm)
    simp [splitN2Slash, hc, ih ht]

/-- On input holding a slash, splitting returns the segments before and
after the first slash. -/
theorem splitN2Slash_eq_some (l : List Char) (h : '/' ∈ l) :
    splitN2Slash l =
      some (l.takeWhile (fun c => c ≠ '/'), (l.dropWhile (fun c => c ≠ '/')).tail) := by
  induction l with
  | nil => cases h
  | cons c t ih =>
    by_cases hc : c = '/'
    · subst hc
      simp [splitN2Slash, List.takeWhile, List.dropWhile]
    · have ht : '/' ∈ t := by
        cases List.mem_cons.1 h with
        | inl he => exact absurd he.symm hc
        | inr hm => exact hm
      simp [splitN2Slash, hc, ih ht, List.takeWhile, List.dropWhile]

/-- C6: `convertDockerImageReference` is a pure function: on any input with
at least one slash it returns the external hostname, a slash and the
remainder of the input after its first slash; on slash-free input it fails
with the missing-separator error. -/
theorem convertDockerImageReference_spec (hostname ref : String) :
    ('/' ∈ ref.data →
      convertDockerImageReference hostname ref =
        Except.ok (hostname ++ "/" ++ String.mk ((ref.data.dropWhile (fun c => c ≠ '/')).tail)))
    ∧ ('/' ∉ ref.data →
      convertDockerImageReference hostname ref =
        Except.error ("Invalid format of docker reference " ++ ref ++ ": missing \x27/\x27")) := by
  constructor
  · intro h
    simp [convertDockerImageReference, splitN2Slash_eq_some ref.data h]
  · intro h
    simp [convertDockerImageReference, splitN2Slash_eq_none ref.data h]

/-- Witness for C6: a cluster-internal reference is rewritten onto the
external hostname, and a slash-free reference is rejected. -/
theorem convertDockerImageReference_spec_witness :
    convertDockerImageReference "registry.example.com" "172.30.0.1/ns/stream" =
      Except.ok ("registry.example.com" ++ "/" ++
        String.mk (("172.30.0.1/ns/stream".data.dropWhile (fun c => c ≠ '/')).tail))
    ∧ convertDockerImageReference "registry.example.com" "nolash" =
      Except.error ("Invalid format of docker reference " ++ "nolash" ++ ": missing \x27/\x27") :=
  ⟨(convertDockerImageReference_spec "registry.example.com" "172.30.0.1/ns/stream").1 (by decide),
   (convertDockerImageReference_spec "registry.example.com" "nolash").2 (by decide)⟩

/-- C3: response classification of `doRequest`: a 101 response whose
decoded envelope has a non-Success status fails with the envelope message;
every code in 200 to 206 succeeds with the raw body whatever was decoded;
any other code fails with the envelope message when an envelope decoded
(unmarshal succeeded with a non-empty Status field), and otherwise with
the generic error naming the code and the raw body text — "otherwise"
covering both a body that did not unmarshal at all and a body that
unmarshalled to an envelope whose Status field is empty, which
`statusValid` likewise counts as no envelope. -/
theorem doRequest_classification (code : Nat) (st : status) (body : String) :
    (st.status ≠ "" → st.status ≠ "Success" →
      classifyResponse 101 (some st) body = Except.error st.message)
    ∧ (200 ≤ code → code ≤ 206 →
      ∀ decoded, classifyResponse code decoded body = Except.ok body)
    ∧ (code ≠ 101 → ¬(200 ≤ code ∧ code ≤ 206) → st.status ≠ "" →
      classifyResponse code (some st) body = Except.error st.message)
    ∧ (code ≠ 101 → ¬(200 ≤ code ∧ code ≤ 206) →
      classifyResponse code none body =
        Except.error ("HTTP error: status code: " ++ toString code ++ ", body: " ++ body))
    ∧ (code ≠ 101 → ¬(200 ≤ code ∧ code ≤ 206) → st.status = "" →
      classifyResponse code (some st) body =
        Except.error ("HTTP error: status code: " ++ toString code ++ ", body: " ++ body)) := by
  refine ⟨?_, ?_, ?_, ?_, ?_⟩
  · intro h1 h2
    have hp : 0 < st.status.length :=
      Nat.pos_of_ne_zero (fun hl => h1 ((string_length_eq_zero _).1 hl))
    simp [classifyResponse, statusValid, hp, h2]
  · intro h1 h2 decoded
    have hne : code ≠ 101 := by omega
    simp [classifyResponse, hne, h1, h2]
  · intro h1 h2 h3
    have hp : 0 < st.status.length :=
      Nat.pos_of_ne_zero (fun hl => h3 ((string_length_eq_zero _).1 hl))
    simp [classifyResponse, statusValid, h1, h2, hp]
  · intro h1 h2
    simp [classifyResponse, statusValid, h1, h2]
  · intro h1 h2 h3
    simp [classifyResponse, statusValid, h1, h2, h3]

/-- Witness for C3 covering the five classified shapes: a 101 failure
envelope, a bare 204, a 404 failure envelope, a 404 with an undecodable
body, and a 404 whose body unmarshals but carries an empty Status field. -/
theorem doRequest_classification_witness :
    classifyResponse 101 (some ⟨"Failure", "x", 0⟩) "" = Except.error "x"
    ∧ classifyResponse 204 none "" = Except.ok ""
    ∧ classifyResponse 404 (some ⟨"Failure", "not found", 0⟩) "" = Except.error "not found"
    ∧ classifyResponse 404 none "bodytext" =
        Except.error ("HTTP error: status code: " ++ toString 404 ++ ", body: " ++ "bodytext")
    ∧ classifyResponse 404 (some ⟨"", "hi", 0⟩) "rawbody" =
        Except.error ("HTTP error: status code: " ++ toString 404 ++ ", body: " ++ "rawbody") :=
  ⟨(doRequest_classification 0 ⟨"Failure", "x", 0⟩ "").1 (by decide) (by decide),
   (doRequest_classification 204 ⟨"", "", 0⟩ "").2.1 (by decide) (by decide) none,
   (doRequest_classification 404 ⟨"Failure", "not found", 0⟩ "").2.2.1 (by decide) (by decide)
     (by decide),
   (doRequest_classification 404 ⟨"", "", 0⟩ "bodytext").2.2.2.1 (by decide) (by decide),
   (doRequest_classification 404 ⟨"", "hi", 0⟩ "rawbody").2.2.2.2 (by decide) (by decide) rfl⟩

/-- The tag scan equals a search for the first entry that both matches the
reference tag and has non-empty items, then takes the head of its items. -/
theorem findTagEvent_eq_find (refTag : String) (tags : List namedTagEventList) :
    findTagEvent refTag tags =
      (tags.find? (fun t => decide (t.tag = refTag ∧ 0 < t.items.length))).bind
        (fun t => t.items.head?) := by
  induction tags with
  | nil => rfl
  | cons t rest ih =>
    by_cases h1 : t.tag = refTag
    · by_cases h2 : 0 < t.items.length
      · simp [findTagEvent, h1, h2, List.find?_cons_of_pos]
      · simp [findTagEvent, h1, h2, List.find?_cons_of_neg, ih]
    · simp [findTagEvent, h1, List.find?_cons_of_neg, ih]

/-- C2 (amended): tag resolution selects the first item of the first
`status.tags` entry whose tag equals the reference tag and whose `items`
sequence is non-empty; a matching entry with empty `items` is passed over
like a non-matching one, and only when no matching entry with items exists
does resolution fail with the error `No matching tag found`. -/
theorem resolveTagEvent_first_nonempty_match (refTag : String)
    (tags : List namedTagEventList) :
    resolveTagEvent refTag tags =
      match tags.find? (fun t => decide (t.tag = refTag ∧ 0 < t.items.length)) with
      | none => Except.error "No matching tag found"
      | some t =>
        match t.items.head? with
        | none => Except.error "No matching tag found"
        | some te => Except.ok te := by
  rw [resolveTagEvent, findTagEvent_eq_find]
  cases hf : tags.find? (fun t => decide (t.tag = refTag ∧ 0 < t.items.length)) with
  | none => rfl
  | some t => cases t.items.head? <;> rfl

/-- C2 counterexample: with two `status.tags` entries carrying the same
tag, the first with empty items and the second with one event, the code
resolves to the second entry, while the claim (formalised by
`resolveTagEventSpec`, which reads the first matching entry only) demands
failure because the matching tag has empty items. -/
theorem resolveTagEvent_duplicate_tag_cex :
    resolveTagEvent "t" [⟨"t", []⟩, ⟨"t", [⟨"r", "img"⟩]⟩] = Except.ok ⟨"r", "img"⟩
    ∧ resolveTagEventSpec "t" [⟨"t", []⟩, ⟨"t", [⟨"r", "img"⟩]⟩] =
        Except.error "No matching tag found" := by
  decide

end Openshift

namespace Image

/-- The selection loop equals a search for the first platform-matching
descriptor, defaulting to the empty digest. -/
theorem findTargetManifestDigest_eq_find (goarch goos : String)
    (l : List manifestDescriptor) :
    findTargetManifestDigest goarch goos l =
      ((l.find? (fun d => decide (d.platform.architecture = goarch ∧ d.platform.os = goos))).map
        (fun d => d.digest)).getD "" := by
  induction l with
  | nil => rfl
  | cons d rest ih =>
    by_cases h : d.platform.architecture = goarch ∧ d.platform.os = goos
    · simp [findTargetManifestDigest, h, List.find?_cons_of_pos]
    · simp [findTargetManifestDigest, h, List.find?_cons_of_neg, ih]

/-- C5 (amended): manifest-list selection picks the first descriptor in
`manifests` order whose platform architecture and OS both equal the running
platform (string equality, no normalization) and fetches that manifest by
its digest through the source; it fails with the no-supported-platform
error not only when no descriptor matches but also when the first matching
descriptor carries an empty digest, which the code cannot distinguish from
the no-match sentinel. -/
theorem manifestSchema2FromManifestList_first_match (goarch goos : String)
    (getTargetManifest : String → Except String (List Nat × String))
    (list : manifestList) :
    manifestSchema2FromManifestList goarch goos getTargetManifest list =
      match list.manifests.find?
          (fun d => decide (d.platform.architecture = goarch ∧ d.platform.os = goos)) with
      | none => Except.error "no supported platform found in manifest list"
      | some d =>
        if d.digest = "" then Except.error "no supported platform found in manifest list"
        else getTargetManifest d.digest := by
  rw [manifestSchema2FromManifestList, findTargetManifestDigest_eq_find]
  cases hf : list.manifests.find?
      (fun d => decide (d.platform.architecture = goarch ∧ d.platform.os = goos)) with
  | none => rfl
  | some d => by_cases hd : d.digest = "" <;> simp [hd]

/-- C5 counterexample: a manifest list whose only descriptor matches the
running platform but has digest `""` is rejected with the
no-supported-platform error, although a descriptor does match, so failure
is not limited to a missing match and the matching descriptor is never
fetched. -/
theorem manifestList_empty_digest_cex :
    manifestSchema2FromManifestList "amd64" "linux" (fun d => Except.ok ([1], d))
        ⟨2, "mt", [⟨"m", 0, "", ⟨"amd64", "linux", "", [], "", []⟩⟩]⟩ =
      Except.error "no supported platform found in manifest list"
    ∧ ([⟨"m", 0, "", ⟨"amd64", "linux", "", [], "", []⟩⟩] : List manifestDescriptor).any
        (fun d => decide (d.platform.architecture = "amd64" ∧ d.platform.os = "linux")) =
        true := by
  decide

end Image

namespace Openshift

/-- C7: before any manifest digest has been recorded (the state produced
by `newImageDestination`), `PutSignatures` fails with the
unknown-manifest-digest error and performs no API calls whatsoever. -/
theorem putSignatures_before_manifest (getImageResult : Except String image)
    (rand : List (List Nat)) (signatures : List (List Nat)) :
    PutSignatures newImageDestinationState getImageResult rand signatures =
      (Except.error unknownDigestError, []) := by
  simp [PutSignatures, newImageDestinationState]

/-- C8: with a recorded content identifier, `PutSignatures` on an empty
signature list succeeds at once and performs no API calls; in particular
the remote image object is never fetched. -/
theorem putSignatures_empty_noop (d : openshiftImageDestination)
    (getImageResult : Except String image) (rand : List (List Nat))
    (h : d.imageStreamImageName ≠ "") :
    PutSignatures d getImageResult rand [] = (Except.ok [], []) := by
  simp [PutSignatures, h]

/-- Witness for C8 on a concrete recorded digest. -/
theorem putSignatures_empty_noop_witness :
    PutSignatures ⟨"sha256:x"⟩ (Except.error "e") [] [] = (Except.ok [], []) :=
  putSignatures_empty_noop ⟨"sha256:x"⟩ (Except.error "e") [] (by decide)

/-- C10: on a successful digest computation, `PutManifest` records the
digest on the destination state and then returns the delegate outcome
unchanged, so the recording survives a failing delegate write: the
resulting state never makes `PutSignatures` produce the
unknown-manifest-digest failure with an empty call trace. -/
theorem putManifest_records_digest (d : openshiftImageDestination) (dg e : String)
    (hdg : dg ≠ "") :
    (PutManifest (Except.ok dg) (Except.error e) d).2 = Except.error e
    ∧ (PutManifest (Except.ok dg) (Except.error e) d).1.imageStreamImageName = dg
    ∧ ∀ getImageResult rand signatures,
        PutSignatures (PutManifest (Except.ok dg) (Except.error e) d).1 getImageResult rand
            signatures ≠ (Except.error unknownDigestError, []) := by
  refine ⟨rfl, rfl, ?_⟩
  intro getImageResult rand signatures
  by_cases hs : signatures.length = 0
  · simp [PutManifest, PutSignatures, hdg, hs]
  · cases getImageResult with
    | error e2 => simp [PutManifest, PutSignatures, hdg, hs]
    | ok img =>
      simp only [PutManifest, PutSignatures, hdg, hs, if_false, if_neg]
      cases hl : putSignaturesLoop dg img.signatures
          (img.signatures.map fun s => s.metadata.name) rand signatures with
      | mk r calls => simp [hl]

/-- Witness for C10: after a `PutManifest` whose delegate write failed, a
`PutSignatures` call no longer reports the unknown-digest failure. -/
theorem putManifest_records_digest_witness :
    PutSignatures (PutManifest (Except.ok "sha256:abc") (Except.error "boom")
        newImageDestinationState).1 (Except.ok ⟨⟨""⟩, "", "", "", []⟩) [] [] ≠
      (Except.error unknownDigestError, []) :=
  (putManifest_records_digest newImageDestinationState "sha256:abc" "boom" (by decide)).2.2
    (Except.ok ⟨⟨""⟩, "", "", "", []⟩) [] []

/-- A name accepted by the generation loop is never one of the known
names it was checked against. -/
theorem genSignatureName_fresh (contentID : String) (existingSigNames : List String) :
    ∀ rand signatureName randRest,
      genSignatureName contentID existingSigNames rand =
        Except.ok (signatureName, randRest) →
      signatureName ∉ existingSigNames := by
  intro rand
  induction rand with
  | nil =>
    intro n r h
    simp [genSignatureName] at h
  | cons b rest ih =>
    intro n r h
    by_cases hb : b.length ≠ 16
    · simp [genSignatureName, hb] at h
    · by_cases hm : contentID ++ "@" ++ hex32 b ∈ existingSigNames
      · simp only [genSignatureName, if_neg hb, if_pos hm] at h
        exact ih n r h
      · simp only [genSignatureName, if_neg hb, if_neg hm, Except.ok.injEq,
          Prod.mk.injEq] at h
        exact h.1 ▸ hm

/-- Every signature POSTed by the candidate loop carries a name outside
the known-name set the loop was given. -/
theorem putSignaturesLoop_fresh (contentID : String) (existingSigs : List imageSignature)
    (existingSigNames : List String) :
    ∀ signatures rand posted calls,
      putSignaturesLoop contentID existingSigs existingSigNames rand signatures =
        (Except.ok posted, calls) →
      ∀ sig ∈ posted, sig.metadata.name ∉ existingSigNames := by
  intro signatures
  induction signatures with
  | nil =>
    intro rand posted calls h sig hs
    simp only [putSignaturesLoop, Prod.mk.injEq, Except.ok.injEq] at h
    obtain ⟨h1, h2⟩ := h
    subst h1
    cases hs
  | cons newSig rest ih =>
    intro rand posted calls h sig hs
    by_cases hskip : ∃ q ∈ existingSigs,
        q.sigType = imageSignatureTypeAtomic ∧ q.content = newSig
    · rw [putSignaturesLoop, if_pos hskip] at h
      exact ih rand posted calls h sig hs
    · rw [putSignaturesLoop, if_neg hskip] at h
      cases hg : genSignatureName contentID existingSigNames rand with
      | error e =>
        rw [hg] at h
        simp at h
      | ok p =>
        obtain ⟨nm, randRest⟩ := p
        rw [hg] at h
        dsimp only at h
        cases hl : putSignaturesLoop contentID existingSigs existingSigNames randRest rest with
        | mk res calls2 =>
          cases res with
          | error e =>
            rw [hl] at h
            simp at h
          | ok sigs =>
            rw [hl] at h
            dsimp only at h
            simp only [Prod.mk.injEq, Except.ok.injEq] at h
            obtain ⟨h1, h2⟩ := h
            subst h1
            cases hs with
            | head =>
              exact genSignatureName_fresh contentID existingSigNames rand nm randRest hg
            | tail _ hmem =>
              exact ih randRest sigs calls2 hl sig hmem

/-- C1 (amended): every signature POSTed by a `PutSignatures` call carries
a freshly generated name of form `contentID@<32 hex chars>` that is
distinct from every signature name already present on the fetched image
object, each candidate being retried on collision with those pre-existing
names; names minted earlier in the same call, however, are not added to
the checked set, so a repeated random sample can produce two identical
names within one batch. -/
theorem putSignatures_names_avoid_existing (d : openshiftImageDestination) (img : image)
    (rand : List (List Nat)) (signatures : List (List Nat))
    (posted : List imageSignature) (calls : List apiCall)
    (h : PutSignatures d (Except.ok img) rand signatures = (Except.ok posted, calls)) :
    ∀ sig ∈ posted, sig.metadata.name ∉ img.signatures.map (fun s => s.metadata.name) := by
  intro sig hs
  by_cases hname : d.imageStreamImageName = ""
  · rw [PutSignatures, if_pos hname] at h
    simp at h
  · by_cases hlen : signatures.length = 0
    · rw [PutSignatures, if_neg hname, if_pos hlen] at h
      simp only [Prod.mk.injEq, Except.ok.injEq] at h
      obtain ⟨h1, h2⟩ := h
      subst h1
      cases hs
    · rw [PutSignatures, if_neg hname, if_neg hlen] at h
      dsimp only at h
      cases hl : putSignaturesLoop d.imageStreamImageName img.signatures
          (img.signatures.map fun s => s.metadata.name) rand signatures with
      | mk res calls2 =>
        rw [hl] at h
        dsimp only at h
        simp only [Prod.mk.injEq] at h
        exact putSignaturesLoop_fresh d.imageStreamImageName img.signatures
          (img.signatures.map fun s => s.metadata.name) signatures rand posted calls2
          (by rw [hl, h.1]) sig hs

/-- An image with no stored signatures, shared by the concrete runs. -/
def emptyImage : image := ⟨⟨""⟩, "", "", "", []⟩

/-- The signature minted from the all-zero random draw for content `[0]`. -/
def sigZeroContent0 : imageSignature :=
  ⟨⟨"ImageSignature", "v1"⟩, ⟨"i@00000000000000000000000000000000"⟩, "atomic", [0]⟩

/-- The signature minted from the all-zero random draw for content `[1]`. -/
def sigZeroContent1 : imageSignature :=
  ⟨⟨"ImageSignature", "v1"⟩, ⟨"i@00000000000000000000000000000000"⟩, "atomic", [1]⟩

/-- The signature minted from the draw starting with byte 1 for content
`[0]`. -/
def sigOneContent0 : imageSignature :=
  ⟨⟨"ImageSignature", "v1"⟩, ⟨"i@01000000000000000000000000000000"⟩, "atomic", [0]⟩

/-- A pre-existing signature carrying the all-ones name. -/
def preexistingOnesSig : imageSignature :=
  ⟨⟨"", ""⟩, ⟨"abc@11111111111111111111111111111111"⟩, "atomic", [5]⟩

/-- An image already holding `preexistingOnesSig`. -/
def imgWithOnesSig : image := ⟨⟨""⟩, "", "", "", [preexistingOnesSig]⟩

/-- The signature minted for content `[0]` under content identifier
`abc`. -/
def sigAbcContent0 : imageSignature :=
  ⟨⟨"ImageSignature", "v1"⟩, ⟨"abc@00000000000000000000000000000000"⟩, "atomic", [0]⟩

/-- Witness for C1 (amended): a signature minted against an image carrying
the all-ones name lands outside the pre-existing name set. -/
theorem putSignatures_names_avoid_existing_witness :
    sigAbcContent0.metadata.name ∉ imgWithOnesSig.signatures.map (fun s => s.metadata.name) :=
  putSignatures_names_avoid_existing ⟨"abc"⟩ imgWithOnesSig [List.replicate 16 0] [[0]]
    [sigAbcContent0]
    [apiCall.getImage "abc", apiCall.postSignature sigAbcContent0]
    (by decide) sigAbcContent0 (by decide)

/-- C1 counterexample: with an empty pre-existing signature set, a batch of
two distinct contents and a randomness source that repeats the same 16
bytes, both POSTed signatures receive the very same name, refuting the
pairwise distinctness of the generated names within one batch. -/
theorem putSignatures_batch_collision_cex :
    (PutSignatures ⟨"i"⟩ (Except.ok emptyImage)
        [List.replicate 16 0, List.replicate 16 0] [[0], [1]]).fst =
      Except.ok [sigZeroContent0, sigZeroContent1]
    ∧ sigZeroContent0.metadata.name = sigZeroContent1.metadata.name
    ∧ sigZeroContent0.content ≠ sigZeroContent1.content := by
  decide

/-- After a successful candidate loop, every input content is carried by
an atomic-typed signature among the existing ones or the POSTed ones: a
skipped candidate already had an atomic twin, a surviving one was POSTed
as an atomic signature with that very content. -/
theorem putSignaturesLoop_covers (contentID : String) (existingSigs : List imageSignature)
    (existingSigNames : List String) :
    ∀ signatures rand posted calls,
      putSignaturesLoop contentID existingSigs existingSigNames rand signatures =
        (Except.ok posted, calls) →
      ∀ s ∈ signatures, ∃ q ∈ existingSigs ++ posted,
        q.sigType = imageSignatureTypeAtomic ∧ q.content = s := by
  intro signatures
  induction signatures with
  | nil =>
    intro rand posted calls h s hs
    cases hs
  | cons newSig rest ih =>
    intro rand posted calls h s hs
    by_cases hskip : ∃ q ∈ existingSigs,
        q.sigType = imageSignatureTypeAtomic ∧ q.content = newSig
    · rw [putSignaturesLoop, if_pos hskip] at h
      cases hs with
      | head =>
        obtain ⟨q, hq, hqt⟩ := hskip
        exact ⟨q, List.mem_append_left _ hq, hqt⟩
      | tail _ hmem =>
        exact ih rand posted calls h s hmem
    · rw [putSignaturesLoop, if_neg hskip] at h
      cases hg : genSignatureName contentID existingSigNames rand with
      | error e =>
        rw [hg] at h
        simp at h
      | ok p =>
        obtain ⟨nm, randRest⟩ := p
        rw [hg] at h
        dsimp only at h
        cases hl : putSignaturesLoop contentID existingSigs existingSigNames randRest rest with
        | mk res calls2 =>
          cases res with
          | error e =>
            rw [hl] at h
            simp at h
          | ok sigs =>
            rw [hl] at h
            dsimp only at h
            simp only [Prod.mk.injEq, Except.ok.injEq] at h
            obtain ⟨h1, h2⟩ := h
            subst h1
            cases hs with
            | head =>
              refine ⟨⟨⟨"ImageSignature", "v1"⟩, ⟨nm⟩, imageSignatureTypeAtomic, newSig⟩,
                List.mem_append_right _ (List.mem_cons_self _ _), rfl, rfl⟩
            | tail _ hmem =>
              obtain ⟨q, hq, hqt⟩ := ih randRest sigs calls2 hl s hmem
              cases List.mem_append.1 hq with
              | inl hqe => exact ⟨q, List.mem_append_left _ hqe, hqt⟩
              | inr hqp =>
                exact ⟨q, List.mem_append_right _ (List.mem_cons_of_mem _ hqp), hqt⟩

/-- When every candidate already has an atomic twin among the existing
signatures, the candidate loop skips them all: it POSTs nothing and
succeeds with an empty trace, whatever the randomness stream holds. -/
theorem putSignaturesLoop_all_skip (contentID : String) (existingSigs : List imageSignature)
    (existingSigNames : List String) :
    ∀ signatures rand,
      (∀ s ∈ signatures, ∃ q ∈ existingSigs,
        q.sigType = imageSignatureTypeAtomic ∧ q.content = s) →
      putSignaturesLoop contentID existingSigs existingSigNames rand signatures =
        (Except.ok [], []) := by
  intro signatures
  induction signatures with
  | nil => intro rand hall; rfl
  | cons newSig rest ih =>
    intro rand hall
    have hskip : ∃ q ∈ existingSigs,
        q.sigType = imageSignatureTypeAtomic ∧ q.content = newSig :=
      hall newSig (List.mem_cons_self _ _)
    rw [putSignaturesLoop, if_pos hskip]
    exact ih rand (fun s hs => hall s (List.mem_cons_of_mem _ hs))

/-- C4 (amended): running `PutSignatures` a second time with the same
signature list, against the remote state left by a successful first run
(the fetched image extended by the signatures the first run POSTed),
succeeds and POSTs nothing: every candidate now has a byte-identical
atomic-typed twin among the stored signatures and is skipped, so the
stored signature content set is exactly that of the single run.  The skip
check compares candidates only against signatures present at fetch time,
never against the other candidates of the batch, so a batch with
duplicated contents stores duplicates (see the counterexample). -/
theorem putSignatures_rerun_noop (d : openshiftImageDestination) (img : image)
    (rand1 rand2 : List (List Nat)) (signatures : List (List Nat))
    (posted : List imageSignature) (calls : List apiCall)
    (h : PutSignatures d (Except.ok img) rand1 signatures = (Except.ok posted, calls)) :
    (PutSignatures d (Except.ok { img with signatures := img.signatures ++ posted })
        rand2 signatures).fst = Except.ok [] := by
  by_cases hname : d.imageStreamImageName = ""
  · rw [PutSignatures, if_pos hname] at h
    simp at h
  · by_cases hlen : signatures.length = 0
    · rw [PutSignatures, if_neg hname, if_pos hlen]
    · rw [PutSignatures, if_neg hname, if_neg hlen] at h
      dsimp only at h
      cases hl : putSignaturesLoop d.imageStreamImageName img.signatures
          (img.signatures.map fun s => s.metadata.name) rand1 signatures with
      | mk res calls2 =>
        rw [hl] at h
        dsimp only at h
        simp only [Prod.mk.injEq] at h
        have hcov := putSignaturesLoop_covers d.imageStreamImageName img.signatures
          (img.signatures.map fun s => s.metadata.name) signatures rand1 posted calls2
          (by rw [hl, h.1])
        rw [PutSignatures, if_neg hname, if_neg hlen]
        dsimp only
        rw [putSignaturesLoop_all_skip d.imageStreamImageName (img.signatures ++ posted)
          ((img.signatures ++ posted).map fun s => s.metadata.name) signatures rand2 hcov]

/-- Witness for C4 (amended): re-running the singleton batch against the
state left by its first run POSTs nothing. -/
theorem putSignatures_rerun_noop_witness :
    (PutSignatures ⟨"i"⟩
        (Except.ok { emptyImage with signatures := emptyImage.signatures ++ [sigZeroContent0] })
        [] [[0]]).fst = Except.ok [] :=
  putSignatures_rerun_noop ⟨"i"⟩ emptyImage [List.replicate 16 0] [] [[0]]
    [sigZeroContent0]
    [apiCall.getImage "i", apiCall.postSignature sigZeroContent0] (by decide)

/-- C4 counterexample: a batch holding the same content twice POSTs two
distinct atomic signatures with identical content in its first run (the
skip check only consults the signatures fetched at the start of the call),
and the second run adds nothing more; the final stored signature list of
the double run therefore equals that of the single run but carries
duplicate atomic content, refuting the no-duplicate-content half of the
claim. -/
theorem putSignatures_duplicate_batch_cex :
    (PutSignatures ⟨"i"⟩ (Except.ok emptyImage)
        [List.replicate 16 0, 1 :: List.replicate 15 0] [[0], [0]]).fst =
      Except.ok [sigZeroContent0, sigOneContent0]
    ∧ (PutSignatures ⟨"i"⟩
        (Except.ok { emptyImage with
          signatures := emptyImage.signatures ++ [sigZeroContent0, sigOneContent0] })
        [] [[0], [0]]).fst = Except.ok []
    ∧ sigZeroContent0.sigType = imageSignatureTypeAtomic
    ∧ sigOneContent0.sigType = imageSignatureTypeAtomic
    ∧ sigZeroContent0.content = sigOneContent0.content
    ∧ sigZeroContent0 ≠ sigOneContent0 := by
  decide

end Openshift
